import Mathlib

/-!
ClearView-Optics: the try-on loop of `src/main.js`

A shallow embedding of `exerciseFive` (src/main.js, lines 32-267): the scene
set-up, the GLTF load callbacks, the two button handlers, the camera start-up
callbacks and the render loop `animate`.

Conventions.
* JavaScript numbers are exact rationals (`ℚ`); `NaN` and the infinities are
  outside the model, so every statement that depends on the value of
  `videoWidth / videoHeight` assumes `videoHeight ≠ 0`.
* `Math.atan2` is not evaluated: its result is the term `Angle.atan2 y x`,
  which can be interpreted by any function through `Angle.eval`.
* Everything the browser or a library decides (what the video element reports,
  what `detectForVideo` returns, when a promise resolves) is an input of the
  event that reads it.
* `animate` is an `async` function.  It runs without interruption up to the
  `await` on line 200; the rest of that invocation is a separate step,
  `animateResume`, so other events may run in between.
* DOM styling, canvas sizing, console output and mesh visibility are left out:
  no variable read by the loop depends on them.
-/

namespace ClearView

/-- One point of a landmark set (normalized coordinates). -/
structure Landmark where
  x : ℚ
  y : ℚ
  z : ℚ
deriving DecidableEq, Repr

/-- THREE.Vector3. -/
structure Vector3 where
  x : ℚ
  y : ℚ
  z : ℚ
deriving DecidableEq, Repr

/-- The value stored in `rotation.z`: a plain number, or the result of
`Math.atan2(y, x)` kept as a term over its exact arguments. -/
inductive Angle where
  | radians (value : ℚ)
  | atan2 (y x : ℚ)
deriving DecidableEq, Repr

/-- Interpretation of an angle term under a given `Math.atan2`. -/
def Angle.eval (f : ℚ → ℚ → ℚ) : Angle → ℚ
  | Angle.radians v => v
  | Angle.atan2 y x => f y x

/-- The transform of a THREE.Object3D, as far as `animate` writes it. -/
structure Object3D where
  position : Vector3
  scale : Vector3
  rotationZ : Angle
deriving DecidableEq, Repr

/-- The transform of `new THREE.Group()`. -/
def Object3D.fresh : Object3D :=
  { position := ⟨0, 0, 0⟩, scale := ⟨1, 1, 1⟩, rotationZ := Angle.radians 0 }

/-- The module variable `runningMode`. -/
inductive RunningMode where
  | IMAGE
  | VIDEO
deriving DecidableEq, Repr

/-- What `detectForVideo` returns; `faceLandmarks` may be missing. -/
structure FaceLandmarkerResult where
  faceLandmarks : Option (List (List Landmark))
deriving DecidableEq, Repr

/-- The two overlay objects the variable `model` can refer to. -/
inductive ModelRef where
  | testGlasses
  | modelGroup
deriving DecidableEq, Repr

/-- The objects that are ever added to `scene`. -/
inductive SceneChild where
  | overlay (m : ModelRef)
  | ambientLight
  | light1
  | light2
deriving DecidableEq, Repr

/-- State of the one `gltfLoader.load` request issued on line 71. -/
inductive LoadStatus where
  | pending
  | loaded
  | failed
deriving DecidableEq, Repr

/-- THREE.OrthographicCamera frustum bounds. -/
structure OrthographicCamera where
  left : ℚ
  right : ℚ
  top : ℚ
  bottom : ℚ
deriving DecidableEq, Repr

/-- What the `video` element reports at the moment it is read. -/
structure Video where
  currentTime : ℚ
  videoWidth : ℕ
  videoHeight : ℕ
deriving DecidableEq, Repr

/-- Inputs of one run of the loop body: the video element, `performance.now()`
and the value `detectForVideo` returns if it is invoked. -/
structure Env where
  video : Video
  now : ℚ
  detection : FaceLandmarkerResult
deriving DecidableEq, Repr

/-- Observable calls made by a step, in program order. -/
inductive Effect where
  | requestAnimationFrame
  | setOptions
  | detectForVideo (currentTime startTimeMs : ℚ)
  | save
  | clearRect
  | applyPose
  | restore
  | render
  | getUserMedia
  | stopTracks
deriving DecidableEq, Repr

/-- The variables of the module and of `exerciseFive`, with the part of the
browser state they interact with. -/
structure State where
  /-- Line 10: set once `createFaceLandmarker` has finished. -/
  faceLandmarker : Bool
  /-- Line 11. -/
  runningMode : RunningMode
  /-- Line 13. -/
  webcamRunning : Bool
  /-- Line 119: whether the two click handlers were registered. -/
  handlersRegistered : Bool
  /-- Children of `scene`, in insertion order. -/
  sceneChildren : List SceneChild
  /-- Line 50 / 178. -/
  camera : OrthographicCamera
  /-- Line 56. -/
  model : ModelRef
  /-- Transform of the fallback group (line 62). -/
  testGlasses : Object3D
  /-- Transform of the group built on line 84. -/
  modelGroup : Object3D
  /-- Line 139. -/
  cameraInitialized : Bool
  /-- Line 140. -/
  lastVideoTime : ℚ
  /-- Line 141; `none` is `undefined`. -/
  results : Option FaceLandmarkerResult
  /-- The request of line 71. -/
  gltf : LoadStatus
  /-- The class `active` on the modal. -/
  modalActive : Bool
  /-- Whether `video.srcObject` is a stream. -/
  srcObject : Bool
  /-- Unsettled `getUserMedia` promises. -/
  pendingStreams : ℕ
  /-- Listeners added on line 159. -/
  loadeddataListeners : ℕ
  /-- Invocations of `animate` waiting at line 200. -/
  suspended : ℕ
deriving DecidableEq, Repr

/-- Object3D.remove: drops the child if present. -/
def sceneRemove (o : SceneChild) (children : List SceneChild) : List SceneChild :=
  children.erase o

/-- Object3D.add: detaches the object from its parent, then appends it. -/
def sceneAdd (o : SceneChild) (children : List SceneChild) : List SceneChild :=
  children.erase o ++ [o]

/-- Lines 33-141 and 265: the state once `exerciseFive` has returned. The
argument is the value of `hasGetUserMedia()`. The call of `animate` on line
265 returns at the guard of line 193 (see `animate`). -/
def exerciseFive (hasGetUserMedia : Bool) : State :=
  { faceLandmarker := false
    runningMode := RunningMode.IMAGE
    webcamRunning := false
    handlersRegistered := hasGetUserMedia
    sceneChildren :=
      sceneAdd SceneChild.light2
        (sceneAdd SceneChild.light1
          (sceneAdd SceneChild.ambientLight
            (sceneAdd (SceneChild.overlay ModelRef.testGlasses) [])))
    camera := { left := -1, right := 1, top := 1, bottom := -1 }
    model := ModelRef.testGlasses
    testGlasses := Object3D.fresh
    modelGroup := Object3D.fresh
    cameraInitialized := false
    lastVideoTime := -1
    results := none
    gltf := LoadStatus.pending
    modalActive := false
    srcObject := false
    pendingStreams := 0
    loadeddataListeners := 0
    suspended := 0 }

/-- Lines 73-96: the success callback of the loader. -/
def onGltfLoad (s : State) : State :=
  { s with
    sceneChildren :=
      sceneAdd (SceneChild.overlay ModelRef.modelGroup)
        (sceneRemove (SceneChild.overlay ModelRef.testGlasses) s.sceneChildren)
    modelGroup := Object3D.fresh
    model := ModelRef.modelGroup }

/-- Lines 100-102: the error callback only logs. -/
def onGltfError (s : State) : State := s

/-- Lines 97-99: the progress callback only logs. -/
def onGltfProgress (s : State) : State := s

/-- Lines 122-132: the click handler of the close button. -/
def closeModal (s : State) : State × List Effect :=
  let s1 := { s with modalActive := false, webcamRunning := false }
  if s1.srcObject then ({ s1 with srcObject := false }, [Effect.stopTracks])
  else (s1, [])

/-- Lines 144-155 and the call on line 156: the synchronous part of `enableCam`. -/
def enableCam (s : State) : State × List Effect :=
  if !s.faceLandmarker then (s, [])
  else
    ({ s with modalActive := true, webcamRunning := true,
              pendingStreams := s.pendingStreams + 1 },
     [Effect.getUserMedia])

/-- Lines 156-159: the `then` callback of `getUserMedia`. -/
def onStream (s : State) : State :=
  { s with srcObject := true, loadeddataListeners := s.loadeddataListeners + 1 }

/-- Lines 159-184: one `loadeddata` listener. -/
def onLoadedData (v : Video) (s : State) : State :=
  let aspect : ℚ := (v.videoWidth : ℚ) / (v.videoHeight : ℚ)
  { s with
    camera := { left := -aspect, right := aspect, top := 1, bottom := -1 }
    cameraInitialized := true }

/-- The object the variable `model` refers to. -/
def State.activeModel (s : State) : Object3D :=
  match s.model with
  | ModelRef.testGlasses => s.testGlasses
  | ModelRef.modelGroup => s.modelGroup

/-- Writes through the variable `model`. -/
def State.setActiveModel (s : State) (o : Object3D) : State :=
  match s.model with
  | ModelRef.testGlasses => { s with testGlasses := o }
  | ModelRef.modelGroup => { s with modelGroup := o }

/-- Lines 215-216: `results.faceLandmarks[0]` when the three guards of line
215 hold. -/
def State.landmarks (s : State) : Option (List Landmark) :=
  match s.results with
  | none => none
  | some r =>
    match r.faceLandmarks with
    | none => none
    | some [] => none
    | some (first :: _) => some first

/-- Lines 204-208: detection on new frames only. -/
def detectStep (env : Env) (s : State) : State × List Effect :=
  if s.lastVideoTime ≠ env.video.currentTime then
    ({ s with lastVideoTime := env.video.currentTime, results := some env.detection },
     [Effect.detectForVideo env.video.currentTime env.now])
  else (s, [])

/-- Lines 219-255: the transform computed from the three anchor points. -/
def poseOf (leftEyeOuter rightEyeOuter _noseBridge : Landmark) (v : Video)
    (old : Object3D) : Object3D :=
  let eyeCenterX := (leftEyeOuter.x + rightEyeOuter.x) / 2
  let eyeCenterY := (leftEyeOuter.y + rightEyeOuter.y) / 2
  let eyeCenterZ := (leftEyeOuter.z + rightEyeOuter.z) / 2
  let aspect : ℚ := (v.videoWidth : ℚ) / (v.videoHeight : ℚ)
  let SCALE_MULTIPLIER : ℚ := 22 / 10
  let VERTICAL_OFFSET : ℚ := -(5 / 100)
  let HORIZONTAL_OFFSET : ℚ := 0
  let DEPTH_OFFSET : ℚ := 3 / 10
  let modelpositionx := (eyeCenterX - 5 / 10) * 2 * aspect + HORIZONTAL_OFFSET
  let modelpositiony := (5 / 10 - eyeCenterY) * 2 + VERTICAL_OFFSET
  let modelpositionz := eyeCenterZ * -1 + DEPTH_OFFSET
  let eyeDistance := |rightEyeOuter.x - leftEyeOuter.x|
  let scale := eyeDistance * aspect * SCALE_MULTIPLIER
  let angle := Angle.atan2 (rightEyeOuter.y - leftEyeOuter.y)
    (rightEyeOuter.x - leftEyeOuter.x)
  { old with
    position := ⟨modelpositionx, modelpositiony, modelpositionz⟩
    scale := ⟨scale, scale, scale⟩
    rotationZ := angle }

/-- Lines 215-257: positions the model from the current results. `model` is
always an object, so the test `model &&` on line 218 always passes. Reading an
index past the end would throw; the guard on the length excludes it. -/
def poseStep (v : Video) (s : State) : State × List Effect :=
  match s.landmarks with
  | none => (s, [])
  | some landmarks =>
    if 454 < landmarks.length then
      match landmarks[33]?, landmarks[263]?, landmarks[168]? with
      | some leftEyeOuter, some rightEyeOuter, some noseBridge =>
        (s.setActiveModel (poseOf leftEyeOuter rightEyeOuter noseBridge v s.activeModel),
         [Effect.applyPose])
      | _, _, _ => (s, [])
    else (s, [])

/-- Lines 203-262: the part of `animate` after the mode switch. -/
def animateBody (env : Env) (s : State) : State × List Effect :=
  let d := detectStep env s
  let p := poseStep env.video d.1
  (p.1, d.2 ++ [Effect.save, Effect.clearRect] ++ p.2 ++ [Effect.restore, Effect.render])

/-- Lines 189-262: one invocation of `animate` from an animation-frame
callback, up to its end or up to the `await` of line 200. -/
def animate (env : Env) (s : State) : State × List Effect :=
  if !s.cameraInitialized || !s.webcamRunning then
    (s, [Effect.requestAnimationFrame])
  else if s.runningMode = RunningMode.IMAGE then
    ({ s with runningMode := RunningMode.VIDEO, suspended := s.suspended + 1 },
     [Effect.requestAnimationFrame, Effect.setOptions])
  else
    let b := animateBody env s
    (b.1, Effect.requestAnimationFrame :: b.2)

/-- Lines 201-262: an invocation suspended at line 200 continues once
`setOptions` has resolved. -/
def animateResume (env : Env) (s : State) : State × List Effect :=
  if s.suspended = 0 then (s, [])
  else animateBody env { s with suspended := s.suspended - 1 }

/-- Everything that can happen after `exerciseFive` has returned. -/
inductive Event where
  /-- Line 19 completes. -/
  | landmarkerCreated
  | gltfLoad
  | gltfProgress
  | gltfError
  | enableClick
  | closeClick
  | streamResolved
  | streamRejected
  | loadeddata (v : Video)
  | animationFrame (env : Env)
  | setOptionsResolved (env : Env)
deriving DecidableEq, Repr

/-- One event. The loader settles its request once; a click does nothing
unless the handlers were registered; a stream can only arrive for a request
that is still open; every registered `loadeddata` listener runs. -/
def step (e : Event) (s : State) : State × List Effect :=
  match e with
  | Event.landmarkerCreated => ({ s with faceLandmarker := true }, [])
  | Event.gltfLoad =>
    if s.gltf = LoadStatus.pending then
      ({ onGltfLoad s with gltf := LoadStatus.loaded }, [])
    else (s, [])
  | Event.gltfProgress => (onGltfProgress s, [])
  | Event.gltfError =>
    if s.gltf = LoadStatus.pending then
      ({ onGltfError s with gltf := LoadStatus.failed }, [])
    else (s, [])
  | Event.enableClick => if s.handlersRegistered then enableCam s else (s, [])
  | Event.closeClick => if s.handlersRegistered then closeModal s else (s, [])
  | Event.streamResolved =>
    if 0 < s.pendingStreams then
      (onStream { s with pendingStreams := s.pendingStreams - 1 }, [])
    else (s, [])
  | Event.streamRejected =>
    ({ s with pendingStreams := s.pendingStreams - 1 }, [])
  | Event.loadeddata v => ((onLoadedData v)^[s.loadeddataListeners] s, [])
  | Event.animationFrame env => animate env s
  | Event.setOptionsResolved env => animateResume env s

/-- Runs a list of events, collecting the effects in order. -/
def run : List Event → State → State × List Effect
  | [], s => (s, [])
  | e :: es, s =>
    let r := step e s
    let rest := run es r.1
    (rest.1, r.2 ++ rest.2)

/-- The inputs with which lines 203-262 are executed by this event, if they
are: an animation frame of an active session already in VIDEO mode, or the
resumption of an invocation suspended at line 200. -/
def bodyInputs (e : Event) (s : State) : Option Env :=
  match e with
  | Event.animationFrame env =>
    if s.cameraInitialized && s.webcamRunning && (s.runningMode = RunningMode.VIDEO) then
      some env
    else none
  | Event.setOptionsResolved env => if 0 < s.suspended then some env else none
  | _ => none

/-- Number of `detectForVideo` calls in a list of effects. -/
def detectCount : List Effect → ℕ
  | [] => 0
  | Effect.detectForVideo _ _ :: es => detectCount es + 1
  | _ :: es => detectCount es

/-- Number of `renderer.render` calls in a list of effects. -/
def renderCount (es : List Effect) : ℕ := es.count Effect.render

/-- The overlay models among the children of the scene, in order. -/
def overlays : List SceneChild → List ModelRef
  | [] => []
  | SceneChild.overlay m :: cs => m :: overlays cs
  | _ :: cs => overlays cs

/-- Whether the first frame of the capture session started by the latest
click on the enable button has been seen: a `loadeddata` event occurred after
the last `enableClick` of the history. -/
def sessionCalibrated (history : List Event) : Bool :=
  history.foldl
    (fun calibrated e =>
      match e with
      | Event.enableClick => false
      | Event.loadeddata _ => true
      | _ => calibrated)
    false

/-! ## Concrete inputs used by the examples -/

/-- A landmark set of 455 points with the given points at indices 33 and 263
and a filler point everywhere else. -/
def landmarksWith (leftEyeOuter rightEyeOuter : Landmark) : List Landmark :=
  List.replicate 33 ⟨1 / 2, 1 / 2, 0⟩ ++ [leftEyeOuter]
    ++ List.replicate 229 ⟨1 / 2, 1 / 2, 0⟩ ++ [rightEyeOuter]
    ++ List.replicate 191 ⟨1 / 2, 1 / 2, 0⟩

/-- A 1280x720 frame at the given playback time, on which the detector finds
one face with the given eye corners. -/
def frameWith (currentTime : ℚ) (leftEyeOuter rightEyeOuter : Landmark) : Env :=
  { video := { currentTime := currentTime, videoWidth := 1280, videoHeight := 720 }
    now := 16
    detection := { faceLandmarks := some [landmarksWith leftEyeOuter rightEyeOuter] } }

/-- A frame on which the detector finds no face. -/
def emptyFrame (currentTime : ℚ) : Env :=
  { video := { currentTime := currentTime, videoWidth := 1280, videoHeight := 720 }
    now := 16
    detection := { faceLandmarks := some [] } }

/-- Start of a first session: the detector is ready, the camera is enabled, the
stream arrives, its first frame is loaded, and the first animation frame
switches the detector to VIDEO mode. -/
def openingEvents : List Event :=
  [Event.landmarkerCreated, Event.enableClick, Event.streamResolved,
   Event.loadeddata { currentTime := 0, videoWidth := 1280, videoHeight := 720 },
   Event.animationFrame (emptyFrame 0), Event.setOptionsResolved (emptyFrame 0)]

/-- The state of an active session in VIDEO mode that has processed the frame
at time 0 and found no face. -/
def activeState : State := (run openingEvents (exerciseFive true)).1

/-- A frame with the eye corners at (0.3, 0.5) and (0.7, 0.6). -/
def slopedFrame : Env := frameWith 1 ⟨3 / 10, 1 / 2, 0⟩ ⟨7 / 10, 3 / 5, 0⟩

/-- A first session that processes one frame with a face at playback time 0,
is closed, and is followed by a second click on the enable button. -/
def restartEvents : List Event :=
  [Event.landmarkerCreated, Event.enableClick, Event.streamResolved,
   Event.loadeddata { currentTime := 0, videoWidth := 1280, videoHeight := 720 },
   Event.animationFrame (frameWith 0 ⟨3 / 10, 1 / 2, 0⟩ ⟨7 / 10, 3 / 5, 0⟩),
   Event.setOptionsResolved (frameWith 0 ⟨3 / 10, 1 / 2, 0⟩ ⟨7 / 10, 3 / 5, 0⟩),
   Event.closeClick, Event.enableClick]

/-- What the loop reads while the second stream has not arrived: the video
element has no source, so its playback time and its dimensions are 0. -/
def blankFrame : Env :=
  { video := { currentTime := 0, videoWidth := 0, videoHeight := 0 }
    now := 48
    detection := { faceLandmarks := some [] } }

/-- The detector is ready and the enable button has been clicked; the
`getUserMedia` request is still pending. -/
def startPending : State :=
  (run [Event.landmarkerCreated, Event.enableClick] (exerciseFive true)).1

/-! ## The pose step -/

theorem activeModel_setActiveModel (s : State) (o : Object3D) :
    (s.setActiveModel o).activeModel = o := by
  unfold State.setActiveModel State.activeModel
  cases h : s.model <;> simp [h]

theorem landmarks_suspended (s : State) (n : ℕ) :
    ({ s with suspended := n } : State).landmarks = s.landmarks := rfl

theorem detectStep_suspended (env : Env) (s : State) (n : ℕ) :
    detectStep env { s with suspended := n }
      = ({ (detectStep env s).1 with suspended := n }, (detectStep env s).2) := by
  unfold detectStep
  by_cases h : s.lastVideoTime = env.video.currentTime <;> simp [h]

theorem poseStep_suspended (v : Video) (s : State) (n : ℕ) :
    poseStep v { s with suspended := n }
      = ({ (poseStep v s).1 with suspended := n }, (poseStep v s).2) := by
  unfold poseStep
  rw [landmarks_suspended]
  cases hl : s.landmarks with
  | none => rfl
  | some lm =>
    simp only
    split_ifs with hlen
    · cases h33 : lm[33]? <;> cases h263 : lm[263]? <;> cases h168 : lm[168]? <;> simp
      unfold State.setActiveModel State.activeModel
      cases hm : s.model <;> simp
    · rfl

theorem animateBody_suspended (env : Env) (s : State) (n : ℕ) :
    animateBody env { s with suspended := n }
      = ({ (animateBody env s).1 with suspended := n }, (animateBody env s).2) := by
  unfold animateBody
  simp only [detectStep_suspended, poseStep_suspended]

/-- The pose step on a landmark set that passes the guard of line 218. -/
theorem poseStep_valid (v : Video) (s : State) (lm : List Landmark)
    (hlm : s.landmarks = some lm) (hlen : 454 < lm.length) :
    poseStep v s =
      (s.setActiveModel
        (poseOf (lm.get ⟨33, by omega⟩) (lm.get ⟨263, by omega⟩) (lm.get ⟨168, by omega⟩)
          v s.activeModel),
       [Effect.applyPose]) := by
  unfold poseStep
  rw [hlm]
  have h33 : lm[33]? = some (lm.get ⟨33, by omega⟩) := by
    simp [List.getElem?_eq_getElem (show 33 < lm.length by omega)]
  have h263 : lm[263]? = some (lm.get ⟨263, by omega⟩) := by
    simp [List.getElem?_eq_getElem (show 263 < lm.length by omega)]
  have h168 : lm[168]? = some (lm.get ⟨168, by omega⟩) := by
    simp [List.getElem?_eq_getElem (show 168 < lm.length by omega)]
  simp only [hlen, if_true, h33, h263, h168]

/-- The pose step leaves the state alone when there is no usable landmark set. -/
theorem poseStep_skip (v : Video) (s : State)
    (h : ∀ lm, s.landmarks = some lm → lm.length ≤ 454) :
    poseStep v s = (s, []) := by
  unfold poseStep
  cases hl : s.landmarks with
  | none => rfl
  | some lm =>
    have := h lm hl
    simp only
    rw [if_neg (by omega)]

/-- An event that executes the loop body leaves the state the body computes,
up to the counter of suspended invocations. -/
theorem step_of_bodyInputs (e : Event) (s : State) (env : Env)
    (hb : bodyInputs e s = some env) :
    ∃ n, (step e s).1 = { (animateBody env s).1 with suspended := n }
      ∧ ∃ pre, (step e s).2 = pre ++ (animateBody env s).2
        ∧ Effect.applyPose ∉ pre ∧ detectCount pre = 0 := by
  cases e with
  | animationFrame env0 =>
    simp only [bodyInputs] at hb
    split_ifs at hb with hact
    simp only [Bool.and_eq_true, decide_eq_true_eq] at hact
    obtain ⟨⟨hc, hw⟩, hm⟩ := hact
    cases hb
    refine ⟨(animateBody env s).1.suspended, ?_, [Effect.requestAnimationFrame], ?_, ?_, ?_⟩
    · simp [step, animate, hc, hw, hm]
    · simp [step, animate, hc, hw, hm]
    · simp
    · simp [detectCount]
  | setOptionsResolved env0 =>
    simp only [bodyInputs] at hb
    split_ifs at hb with hs
    cases hb
    refine ⟨s.suspended - 1, ?_, [], ?_, ?_, ?_⟩
    · simp only [step, animateResume]
      rw [if_neg (by omega), animateBody_suspended]
    · simp only [step, animateResume]
      rw [if_neg (by omega), animateBody_suspended]
      simp
    · simp
    · simp [detectCount]
  | _ => simp [bodyInputs] at hb

theorem landmarksWith_length (l r : Landmark) : (landmarksWith l r).length = 455 := by
  simp only [landmarksWith, List.length_append, List.length_replicate, List.length_cons,
    List.length_nil]

theorem landmarksWith_get33 (l r : Landmark) (h : 33 < (landmarksWith l r).length) :
    (landmarksWith l r).get ⟨33, h⟩ = l := rfl

theorem landmarksWith_get263 (l r : Landmark) (h : 263 < (landmarksWith l r).length) :
    (landmarksWith l r).get ⟨263, h⟩ = r := rfl

theorem activeModel_detectStep (env : Env) (s : State) :
    (detectStep env s).1.activeModel = s.activeModel := by
  unfold detectStep
  split_ifs <;> rfl

/-- The transform of the active model after an event that executes the loop
body on a landmark set passing the guard of line 218. -/
theorem step_activeModel_valid (e : Event) (s : State) (env : Env) (lm : List Landmark)
    (hb : bodyInputs e s = some env)
    (hlm : (detectStep env s).1.landmarks = some lm) (hlen : 454 < lm.length) :
    (step e s).1.activeModel =
      poseOf (lm.get ⟨33, by omega⟩) (lm.get ⟨263, by omega⟩) (lm.get ⟨168, by omega⟩)
        env.video s.activeModel := by
  obtain ⟨n, hn, -⟩ := step_of_bodyInputs e s env hb
  rw [hn]
  show (animateBody env s).1.activeModel = _
  unfold animateBody
  simp only
  rw [poseStep_valid env.video _ lm hlm hlen]
  simp only [activeModel_setActiveModel, activeModel_detectStep]

/-- C1: after an event that executes the loop body on a detection result whose
first landmark set has more than 454 points, the model position is
((x_mid - 0.5)*2*aspect + 0, (0.5 - y_mid)*2 - 0.05, -z_mid + 0.3) and the
model scale is |x_263 - x_33| * aspect * 2.2 on all three axes, where the
midpoint is taken between landmarks 33 and 263 and aspect is
videoWidth / videoHeight. -/
theorem pose_position_and_scale (e : Event) (s : State) (env : Env) (lm : List Landmark)
    (hb : bodyInputs e s = some env)
    (hlm : (detectStep env s).1.landmarks = some lm) (hlen : 454 < lm.length)
    (_hh : env.video.videoHeight ≠ 0) :
    let l := lm.get ⟨33, by omega⟩
    let r := lm.get ⟨263, by omega⟩
    let aspect : ℚ := (env.video.videoWidth : ℚ) / (env.video.videoHeight : ℚ)
    (step e s).1.activeModel.position
        = ⟨((l.x + r.x) / 2 - 1 / 2) * 2 * aspect + 0,
           (1 / 2 - (l.y + r.y) / 2) * 2 - 1 / 20,
           -((l.z + r.z) / 2) + 3 / 10⟩
      ∧ (step e s).1.activeModel.scale
        = ⟨|r.x - l.x| * aspect * (11 / 5), |r.x - l.x| * aspect * (11 / 5),
           |r.x - l.x| * aspect * (11 / 5)⟩ := by
  dsimp only
  rw [step_activeModel_valid e s env lm hb hlm hlen]
  constructor
  · simp only [poseOf, Vector3.mk.injEq]
    refine ⟨?_, ?_, ?_⟩ <;> ring
  · simp only [poseOf, Vector3.mk.injEq]
    refine ⟨?_, ?_, ?_⟩ <;> norm_num

theorem pose_position_and_scale_witness :
    bodyInputs (Event.animationFrame (frameWith 1 ⟨3 / 10, 1 / 2, 0⟩ ⟨7 / 10, 3 / 5, 1 / 10⟩))
        activeState
      = some (frameWith 1 ⟨3 / 10, 1 / 2, 0⟩ ⟨7 / 10, 3 / 5, 1 / 10⟩)
    ∧ (step (Event.animationFrame (frameWith 1 ⟨3 / 10, 1 / 2, 0⟩ ⟨7 / 10, 3 / 5, 1 / 10⟩))
        activeState).1.activeModel.position = ⟨0, -(3 / 20), 1 / 4⟩
    ∧ (step (Event.animationFrame (frameWith 1 ⟨3 / 10, 1 / 2, 0⟩ ⟨7 / 10, 3 / 5, 1 / 10⟩))
        activeState).1.activeModel.scale = ⟨352 / 225, 352 / 225, 352 / 225⟩ := by
  have h := pose_position_and_scale
    (Event.animationFrame (frameWith 1 ⟨3 / 10, 1 / 2, 0⟩ ⟨7 / 10, 3 / 5, 1 / 10⟩)) activeState
    (frameWith 1 ⟨3 / 10, 1 / 2, 0⟩ ⟨7 / 10, 3 / 5, 1 / 10⟩)
    (landmarksWith ⟨3 / 10, 1 / 2, 0⟩ ⟨7 / 10, 3 / 5, 1 / 10⟩) rfl rfl
    (by rw [landmarksWith_length]; norm_num) (by simp [frameWith])
  refine ⟨rfl, ?_, ?_⟩
  · rw [h.1]
    simp only [landmarksWith_get33, landmarksWith_get263, frameWith, Vector3.mk.injEq]
    norm_num
  · rw [h.2]
    simp only [landmarksWith_get33, landmarksWith_get263, frameWith, Vector3.mk.injEq]
    norm_num [abs_of_pos]

theorem applyPose_mem_poseStep (v : Video) (s : State)
    (h : Effect.applyPose ∈ (poseStep v s).2) :
    ∃ lm, s.landmarks = some lm ∧ 454 < lm.length := by
  cases hl : s.landmarks with
  | none =>
    rw [poseStep_skip v s (by intro lm hlm; rw [hl] at hlm; cases hlm)] at h
    simp at h
  | some lm =>
    by_cases hlen : 454 < lm.length
    · exact ⟨lm, rfl, hlen⟩
    · rw [poseStep_skip v s (by intro lm0 hlm; rw [hl] at hlm; cases hlm; omega)] at h
      simp at h

theorem applyPose_not_mem_detectStep (env : Env) (s : State) :
    Effect.applyPose ∉ (detectStep env s).2 := by
  unfold detectStep
  split_ifs <;> simp

theorem applyPose_mem_animateBody (env : Env) (s : State)
    (h : Effect.applyPose ∈ (animateBody env s).2) :
    ∃ lm, (detectStep env s).1.landmarks = some lm ∧ 454 < lm.length := by
  unfold animateBody at h
  simp only [List.mem_append, List.mem_cons, List.mem_singleton, List.not_mem_nil,
    reduceCtorEq, or_false, false_or] at h
  rcases h with h | h
  · exact absurd h (applyPose_not_mem_detectStep env s)
  · exact applyPose_mem_poseStep _ _ h

/-- The loop body on a result without a usable landmark set changes neither
`model` nor the two overlay transforms, and applies no pose. -/
theorem animateBody_skip (env : Env) (s : State)
    (h : ∀ lm, (detectStep env s).1.landmarks = some lm → lm.length ≤ 454) :
    (animateBody env s).1.model = s.model
      ∧ (animateBody env s).1.testGlasses = s.testGlasses
      ∧ (animateBody env s).1.modelGroup = s.modelGroup
      ∧ Effect.applyPose ∉ (animateBody env s).2 := by
  refine ⟨?_, ?_, ?_, ?_⟩
  · unfold animateBody
    simp only [poseStep_skip _ _ h]
    unfold detectStep; split_ifs <;> rfl
  · unfold animateBody
    simp only [poseStep_skip _ _ h]
    unfold detectStep; split_ifs <;> rfl
  · unfold animateBody
    simp only [poseStep_skip _ _ h]
    unfold detectStep; split_ifs <;> rfl
  · intro hmem
    obtain ⟨lm, hlm, hlen⟩ := applyPose_mem_animateBody env s hmem
    have := h lm hlm
    omega

/-- Only the two ways of executing the loop body can apply a pose. -/
theorem bodyInputs_of_applyPose (e : Event) (s : State)
    (h : Effect.applyPose ∈ (step e s).2) :
    ∃ env, bodyInputs e s = some env ∧ Effect.applyPose ∈ (animateBody env s).2 := by
  cases e with
  | animationFrame env =>
    simp only [step, animate] at h
    split_ifs at h with h1 h2
    · simp at h
    · simp at h
    · simp only [Bool.or_eq_true, Bool.not_eq_true', not_or, Bool.not_eq_false] at h1
      refine ⟨env, ?_, ?_⟩
      · have hm : s.runningMode = RunningMode.VIDEO := by
          cases hrm : s.runningMode
          · exact absurd hrm h2
          · rfl
        simp [bodyInputs, h1.1, h1.2, hm]
      · simpa using h
  | setOptionsResolved env =>
    simp only [step, animateResume] at h
    split_ifs at h with h1
    · simp at h
    · refine ⟨env, ?_, ?_⟩
      · simp only [bodyInputs]
        rw [if_pos (by omega)]
      · rw [animateBody_suspended] at h
        exact h
  | enableClick =>
    simp only [step, enableCam] at h
    split_ifs at h <;> simp at h
  | closeClick =>
    simp only [step, closeModal] at h
    split_ifs at h <;> simp at h
  | gltfLoad => simp only [step] at h; split_ifs at h <;> simp at h
  | gltfError => simp only [step] at h; split_ifs at h <;> simp at h
  | streamResolved => simp only [step] at h; split_ifs at h <;> simp at h
  | _ => simp [step] at h

/-- C3: when the result used by the pose step holds no face, or its first
landmark set does not reach index 263 (so it does not cover the anchor indices
33, 168 and 263), an event that executes the loop body applies no pose: the
variable `model`, the transform of the active model and both overlay
transforms are unchanged. Conversely, whenever any event applies a pose, the
loop body ran on a landmark set in which indices 33, 168 and 263 all exist. -/
theorem no_pose_without_anchors (e : Event) (s : State) :
    (∀ env, bodyInputs e s = some env →
      ((detectStep env s).1.landmarks = none
        ∨ ∃ lm, (detectStep env s).1.landmarks = some lm ∧ lm.length ≤ 263) →
      (step e s).1.model = s.model
        ∧ (step e s).1.activeModel = s.activeModel
        ∧ (step e s).1.testGlasses = s.testGlasses
        ∧ (step e s).1.modelGroup = s.modelGroup
        ∧ Effect.applyPose ∉ (step e s).2)
    ∧ (Effect.applyPose ∈ (step e s).2 →
        ∃ env lm, bodyInputs e s = some env
          ∧ (detectStep env s).1.landmarks = some lm
          ∧ 33 < lm.length ∧ 168 < lm.length ∧ 263 < lm.length) := by
  constructor
  · intro env hb hno
    have hskip : ∀ lm, (detectStep env s).1.landmarks = some lm → lm.length ≤ 454 := by
      intro lm hlm
      rcases hno with hnone | ⟨lm0, hlm0, hlen0⟩
      · rw [hnone] at hlm; cases hlm
      · rw [hlm0] at hlm; cases hlm; omega
    obtain ⟨hm, ht, hg, hp⟩ := animateBody_skip env s hskip
    obtain ⟨n, hn, pre, hpre, hnot, -⟩ := step_of_bodyInputs e s env hb
    have hm2 : (step e s).1.model = s.model := by rw [hn]; exact hm
    have ht2 : (step e s).1.testGlasses = s.testGlasses := by rw [hn]; exact ht
    have hg2 : (step e s).1.modelGroup = s.modelGroup := by rw [hn]; exact hg
    refine ⟨hm2, ?_, ht2, hg2, ?_⟩
    · unfold State.activeModel
      rw [hm2, ht2, hg2]
    · rw [hpre]
      simp only [List.mem_append, not_or]
      exact ⟨hnot, hp⟩
  · intro h
    obtain ⟨env, hb, hmem⟩ := bodyInputs_of_applyPose e s h
    obtain ⟨lm, hlm, hlen⟩ := applyPose_mem_animateBody env s hmem
    exact ⟨env, lm, hb, hlm, by omega, by omega, by omega⟩

set_option maxRecDepth 8000 in
theorem no_pose_without_anchors_witness :
    bodyInputs (Event.animationFrame (emptyFrame 1)) activeState = some (emptyFrame 1)
    ∧ (detectStep (emptyFrame 1) activeState).1.landmarks = none
    ∧ (step (Event.animationFrame (emptyFrame 1)) activeState).1.activeModel
        = activeState.activeModel
    ∧ Effect.applyPose ∈ (step (Event.animationFrame slopedFrame) activeState).2
    ∧ ∃ env lm, bodyInputs (Event.animationFrame slopedFrame) activeState = some env
        ∧ (detectStep env activeState).1.landmarks = some lm
        ∧ 33 < lm.length ∧ 168 < lm.length ∧ 263 < lm.length := by
  have hmem : Effect.applyPose ∈ (step (Event.animationFrame slopedFrame) activeState).2 := by
    have : (step (Event.animationFrame slopedFrame) activeState).2
        = [Effect.requestAnimationFrame, Effect.detectForVideo 1 16, Effect.save,
           Effect.clearRect, Effect.applyPose, Effect.restore, Effect.render] := rfl
    rw [this]; simp
  exact ⟨rfl, rfl,
    ((no_pose_without_anchors (Event.animationFrame (emptyFrame 1)) activeState).1
      (emptyFrame 1) rfl (Or.inl rfl)).2.1,
    hmem,
    (no_pose_without_anchors (Event.animationFrame slopedFrame) activeState).2 hmem⟩

/-- C5: after an event that executes the loop body on a valid landmark set
(more than 454 points), the rotation about Z of the model is
atan2(y_263 - y_33, x_263 - x_33), for every video size and every previous
transform of the model and under every interpretation of `Math.atan2`; for the
eye corners (0.3, 0.5) and (0.7, 0.6) it is atan2(0.1, 0.4). -/
theorem pose_rotation (e : Event) (s : State) (env : Env) (lm : List Landmark)
    (hb : bodyInputs e s = some env)
    (hlm : (detectStep env s).1.landmarks = some lm) (hlen : 454 < lm.length) :
    let l := lm.get ⟨33, by omega⟩
    let r := lm.get ⟨263, by omega⟩
    (step e s).1.activeModel.rotationZ = Angle.atan2 (r.y - l.y) (r.x - l.x)
      ∧ (∀ f : ℚ → ℚ → ℚ,
          (step e s).1.activeModel.rotationZ.eval f = f (r.y - l.y) (r.x - l.x))
      ∧ (l.x = 3 / 10 → l.y = 1 / 2 → r.x = 7 / 10 → r.y = 3 / 5 →
          (step e s).1.activeModel.rotationZ = Angle.atan2 (1 / 10) (2 / 5)) := by
  dsimp only
  have hr : (step e s).1.activeModel.rotationZ
      = Angle.atan2 ((lm.get ⟨263, by omega⟩).y - (lm.get ⟨33, by omega⟩).y)
          ((lm.get ⟨263, by omega⟩).x - (lm.get ⟨33, by omega⟩).x) := by
    rw [step_activeModel_valid e s env lm hb hlm hlen]
    rfl
  refine ⟨hr, fun f => by rw [hr]; rfl, ?_⟩
  intro h1 h2 h3 h4
  rw [hr, h1, h2, h3, h4]
  norm_num

theorem pose_rotation_witness :
    bodyInputs (Event.animationFrame slopedFrame) activeState = some slopedFrame
    ∧ (step (Event.animationFrame slopedFrame) activeState).1.activeModel.rotationZ
        = Angle.atan2 (1 / 10) (2 / 5) :=
  ⟨rfl, (pose_rotation (Event.animationFrame slopedFrame) activeState slopedFrame
    (landmarksWith ⟨3 / 10, 1 / 2, 0⟩ ⟨7 / 10, 3 / 5, 0⟩) rfl rfl
    (by rw [landmarksWith_length]; norm_num)).2.2 rfl rfl rfl rfl⟩

/-! ## The frame scheduler -/

theorem poseStep_cases (v : Video) (s : State) :
    poseStep v s = (s, []) ∨ ∃ o, poseStep v s = (s.setActiveModel o, [Effect.applyPose]) := by
  cases hl : s.landmarks with
  | none => exact Or.inl (poseStep_skip v s (by intro lm hlm; rw [hl] at hlm; cases hlm))
  | some lm =>
    by_cases hlen : 454 < lm.length
    · exact Or.inr ⟨_, poseStep_valid v s lm hl hlen⟩
    · exact Or.inl (poseStep_skip v s (by intro lm0 hlm; rw [hl] at hlm; cases hlm; omega))

theorem setActiveModel_fields (s : State) (o : Object3D) :
    (s.setActiveModel o).cameraInitialized = s.cameraInitialized
      ∧ (s.setActiveModel o).webcamRunning = s.webcamRunning
      ∧ (s.setActiveModel o).runningMode = s.runningMode
      ∧ (s.setActiveModel o).suspended = s.suspended
      ∧ (s.setActiveModel o).lastVideoTime = s.lastVideoTime
      ∧ (s.setActiveModel o).handlersRegistered = s.handlersRegistered
      ∧ (s.setActiveModel o).model = s.model
      ∧ (s.setActiveModel o).sceneChildren = s.sceneChildren
      ∧ (s.setActiveModel o).gltf = s.gltf := by
  unfold State.setActiveModel
  cases s.model <;> simp

/-- What the loop body does to the variables the scheduler reads, and how
often it detects and renders. -/
theorem animateBody_fields (env : Env) (s : State) :
    (animateBody env s).1.cameraInitialized = s.cameraInitialized
      ∧ (animateBody env s).1.webcamRunning = s.webcamRunning
      ∧ (animateBody env s).1.runningMode = s.runningMode
      ∧ (animateBody env s).1.suspended = s.suspended
      ∧ (animateBody env s).1.lastVideoTime = env.video.currentTime
      ∧ (animateBody env s).1.handlersRegistered = s.handlersRegistered
      ∧ (animateBody env s).1.model = s.model
      ∧ (animateBody env s).1.sceneChildren = s.sceneChildren
      ∧ (animateBody env s).1.gltf = s.gltf
      ∧ detectCount (animateBody env s).2
          = (if s.lastVideoTime = env.video.currentTime then 0 else 1)
      ∧ renderCount (animateBody env s).2 = 1 := by
  have hd : (detectStep env s).1.cameraInitialized = s.cameraInitialized
      ∧ (detectStep env s).1.webcamRunning = s.webcamRunning
      ∧ (detectStep env s).1.runningMode = s.runningMode
      ∧ (detectStep env s).1.suspended = s.suspended
      ∧ (detectStep env s).1.lastVideoTime = env.video.currentTime
      ∧ (detectStep env s).1.handlersRegistered = s.handlersRegistered
      ∧ (detectStep env s).1.model = s.model
      ∧ (detectStep env s).1.sceneChildren = s.sceneChildren
      ∧ (detectStep env s).1.gltf = s.gltf
      ∧ (detectStep env s).2
          = (if s.lastVideoTime = env.video.currentTime then []
             else [Effect.detectForVideo env.video.currentTime env.now]) := by
    unfold detectStep
    by_cases h : s.lastVideoTime = env.video.currentTime <;> simp [h]
  obtain ⟨d1, d2, d3, d4, d5, d6, d7, d8, d9, d10⟩ := hd
  unfold animateBody
  simp only
  rcases poseStep_cases env.video (detectStep env s).1 with hp | ⟨o, hp⟩
  · rw [hp, d10]
    refine ⟨d1, d2, d3, d4, d5, d6, d7, d8, d9, ?_, ?_⟩
    · by_cases h : s.lastVideoTime = env.video.currentTime <;> simp [h, detectCount]
    · by_cases h : s.lastVideoTime = env.video.currentTime <;> simp [h, renderCount]
  · rw [hp, d10]
    obtain ⟨f1, f2, f3, f4, f5, f6, f7, f8, f9⟩ := setActiveModel_fields (detectStep env s).1 o
    refine ⟨f1.trans d1, f2.trans d2, f3.trans d3, f4.trans d4, f5.trans d5, f6.trans d6,
      f7.trans d7, f8.trans d8, f9.trans d9, ?_, ?_⟩
    · by_cases h : s.lastVideoTime = env.video.currentTime <;> simp [h, detectCount]
    · by_cases h : s.lastVideoTime = env.video.currentTime <;> simp [h, renderCount]

theorem run_cons (e : Event) (es : List Event) (s : State) :
    run (e :: es) s = ((run es (step e s).1).1, (step e s).2 ++ (run es (step e s).1).2) := rfl

/-- C7 as stated fails: right after set-up the session is not active, and
an animation frame only schedules the next one; the scene is not rendered. -/
theorem idle_tick_renders_counterexample :
    (exerciseFive true).cameraInitialized = false
    ∧ (step (Event.animationFrame (emptyFrame 0)) (exerciseFive true)).2
        = [Effect.requestAnimationFrame]
    ∧ Effect.render ∉ (step (Event.animationFrame (emptyFrame 0)) (exerciseFive true)).2 := by
  refine ⟨rfl, rfl, ?_⟩
  have : (step (Event.animationFrame (emptyFrame 0)) (exerciseFive true)).2
      = [Effect.requestAnimationFrame] := rfl
  rw [this]; simp

/-- C7, amended: on every tick of `animate` where the session is not active
(camera not yet initialized, or webcam not running), detection, pose
application and rendering are all skipped: the invocation schedules the next
animation frame and changes nothing. The scene is rendered exactly once by
every event that executes the loop body. -/
theorem idle_tick_does_nothing (s : State) (env : Env) :
    ((s.cameraInitialized = false ∨ s.webcamRunning = false) →
      step (Event.animationFrame env) s = (s, [Effect.requestAnimationFrame]))
    ∧ (∀ e, bodyInputs e s = some env → renderCount (step e s).2 = 1) := by
  constructor
  · intro h
    rcases h with h | h <;> simp [step, animate, h]
  · intro e hb
    obtain ⟨-, -, -, -, -, -, -, -, -, -, b11⟩ := animateBody_fields env s
    cases e with
    | animationFrame env0 =>
      simp only [bodyInputs] at hb
      split_ifs at hb with hact
      simp only [Bool.and_eq_true, decide_eq_true_eq] at hact
      obtain ⟨⟨hc, hw⟩, hm⟩ := hact
      cases hb
      simp only [step, animate, hc, hw, hm, Bool.not_true, Bool.or_self, Bool.false_eq_true,
        if_false, reduceCtorEq]
      simp only [renderCount, List.count_cons] at b11 ⊢
      simpa using b11
    | setOptionsResolved env0 =>
      simp only [bodyInputs] at hb
      split_ifs at hb with hs
      cases hb
      simp only [step, animateResume]
      rw [if_neg (by omega), animateBody_suspended]
      exact b11
    | _ => simp [bodyInputs] at hb

theorem idle_tick_does_nothing_witness :
    (exerciseFive true).cameraInitialized = false
    ∧ step (Event.animationFrame (emptyFrame 0)) (exerciseFive true)
        = (exerciseFive true, [Effect.requestAnimationFrame])
    ∧ bodyInputs (Event.animationFrame slopedFrame) activeState = some slopedFrame
    ∧ renderCount (step (Event.animationFrame slopedFrame) activeState).2 = 1 :=
  ⟨rfl, (idle_tick_does_nothing (exerciseFive true) (emptyFrame 0)).1 (Or.inl rfl), rfl,
    (idle_tick_does_nothing activeState slopedFrame).2 (Event.animationFrame slopedFrame) rfl⟩

/-! ## Events outside the loop body -/

theorem onLoadedData_iterate_fields (v : Video) (n : ℕ) (s : State) :
    ((onLoadedData v)^[n] s).webcamRunning = s.webcamRunning
      ∧ ((onLoadedData v)^[n] s).model = s.model
      ∧ ((onLoadedData v)^[n] s).sceneChildren = s.sceneChildren
      ∧ ((onLoadedData v)^[n] s).gltf = s.gltf := by
  induction n generalizing s with
  | zero => simp
  | succ k ih =>
    rw [Function.iterate_succ_apply]
    obtain ⟨h1, h2, h3, h4⟩ := ih (onLoadedData v s)
    exact ⟨h1, h2, h3, h4⟩

/-- Only the settling of the GLTF request changes the scene graph, the
variable `model` or the state of the request. -/
theorem step_keeps_scene (e : Event) (s : State)
    (h1 : e ≠ Event.gltfLoad) (h2 : e ≠ Event.gltfError) :
    (step e s).1.sceneChildren = s.sceneChildren
      ∧ (step e s).1.model = s.model
      ∧ (step e s).1.gltf = s.gltf := by
  cases e with
  | gltfLoad => exact absurd rfl h1
  | gltfError => exact absurd rfl h2
  | landmarkerCreated => simp [step]
  | gltfProgress => simp [step, onGltfProgress]
  | enableClick =>
    simp only [step, enableCam]
    split_ifs <;> simp
  | closeClick =>
    simp only [step, closeModal]
    split_ifs <;> simp
  | streamResolved =>
    simp only [step, onStream]
    split_ifs <;> simp
  | streamRejected => simp [step]
  | loadeddata v =>
    obtain ⟨-, a, b, c⟩ := onLoadedData_iterate_fields v s.loadeddataListeners s
    exact ⟨b, a, c⟩
  | animationFrame env =>
    obtain ⟨-, -, -, -, -, -, b7, b8, b9, -, -⟩ := animateBody_fields env s
    simp only [step, animate]
    split_ifs
    · simp
    · simp
    · exact ⟨b8, b7, b9⟩
  | setOptionsResolved env =>
    obtain ⟨-, -, -, -, -, -, b7, b8, b9, -, -⟩ := animateBody_fields env s
    simp only [step, animateResume]
    split_ifs
    · simp
    · rw [animateBody_suspended]
      exact ⟨b8, b7, b9⟩

/-- The flag `webcamRunning` is raised by the enable button only. -/
theorem step_keeps_webcam_off (e : Event) (s : State)
    (he : e ≠ Event.enableClick) (hw : s.webcamRunning = false) :
    (step e s).1.webcamRunning = false := by
  cases e with
  | enableClick => exact absurd rfl he
  | landmarkerCreated => simpa [step] using hw
  | gltfLoad => simp only [step, onGltfLoad]; split_ifs <;> simpa using hw
  | gltfProgress => simpa [step, onGltfProgress] using hw
  | gltfError => simp only [step, onGltfError]; split_ifs <;> simpa using hw
  | closeClick =>
    simp only [step, closeModal]
    split_ifs <;> simp [hw]
  | streamResolved =>
    simp only [step, onStream]
    split_ifs <;> simpa using hw
  | streamRejected => simpa [step] using hw
  | loadeddata v =>
    exact (onLoadedData_iterate_fields v s.loadeddataListeners s).1.trans hw
  | animationFrame env => simp [step, animate, hw]
  | setOptionsResolved env =>
    obtain ⟨-, b2, -⟩ := animateBody_fields env s
    simp only [step, animateResume]
    split_ifs
    · exact hw
    · rw [animateBody_suspended]
      exact b2.trans hw

theorem run_keeps_webcam_off (es : List Event) (s : State)
    (hes : Event.enableClick ∉ es) (hw : s.webcamRunning = false) :
    (run es s).1.webcamRunning = false := by
  induction es generalizing s with
  | nil => exact hw
  | cons e es ih =>
    rw [run_cons]
    exact ih (step e s).1 (fun h => hes (List.mem_cons_of_mem e h))
      (step_keeps_webcam_off e s (fun h => hes (h ▸ List.mem_cons_self e es)) hw)

theorem run_append (as bs : List Event) (s : State) :
    (run (as ++ bs) s).1 = (run bs (run as s).1).1 := by
  induction as generalizing s with
  | nil => rfl
  | cons a as ih => simp only [List.cons_append, run_cons]; exact ih _

theorem overlays_append (as bs : List SceneChild) :
    overlays (as ++ bs) = overlays as ++ overlays bs := by
  induction as with
  | nil => rfl
  | cons a as ih => cases a <;> simp [overlays, ih]

theorem overlays_erase (m : ModelRef) (cs : List SceneChild) :
    overlays (cs.erase (SceneChild.overlay m)) = (overlays cs).erase m := by
  induction cs with
  | nil => rfl
  | cons c cs ih =>
    cases c with
    | overlay k =>
      by_cases hk : k = m
      · subst hk; simp [overlays]
      · simp [List.erase_cons, overlays, hk, ih]
    | ambientLight => simp [List.erase_cons, overlays, ih]
    | light1 => simp [List.erase_cons, overlays, ih]
    | light2 => simp [List.erase_cons, overlays, ih]

theorem step_frame_webcam_off (env : Env) (s : State) (hw : s.webcamRunning = false) :
    step (Event.animationFrame env) s = (s, [Effect.requestAnimationFrame]) := by
  simp [step, animate, hw]

/-- The asset-stage invariant is kept by every event. -/
theorem step_keeps_one_overlay (e : Event) (s : State)
    (hov : overlays s.sceneChildren = [s.model])
    (hl : s.gltf = LoadStatus.loaded → s.model = ModelRef.modelGroup)
    (hn : s.gltf ≠ LoadStatus.loaded → s.model = ModelRef.testGlasses) :
    overlays (step e s).1.sceneChildren = [(step e s).1.model]
      ∧ ((step e s).1.gltf = LoadStatus.loaded → (step e s).1.model = ModelRef.modelGroup)
      ∧ ((step e s).1.gltf ≠ LoadStatus.loaded → (step e s).1.model = ModelRef.testGlasses) := by
  by_cases h1 : e = Event.gltfLoad
  · subst h1
    by_cases hp : s.gltf = LoadStatus.pending
    · have hm : s.model = ModelRef.testGlasses := hn (by rw [hp]; decide)
      rw [hm] at hov
      simp only [step, hp, if_true, onGltfLoad, sceneAdd, sceneRemove]
      refine ⟨?_, by simp, by simp⟩
      rw [overlays_append, overlays_erase, overlays_erase, hov]
      rfl
    · simp only [step, hp, if_false]
      exact ⟨hov, hl, hn⟩
  · by_cases h2 : e = Event.gltfError
    · subst h2
      by_cases hp : s.gltf = LoadStatus.pending
      · have hm : s.model = ModelRef.testGlasses := hn (by rw [hp]; decide)
        simp only [step, hp, if_true, onGltfError]
        exact ⟨hov, by simp, by simpa using hm⟩
      · simp only [step, hp, if_false]
        exact ⟨hov, hl, hn⟩
    · obtain ⟨a, b, c⟩ := step_keeps_scene e s h1 h2
      rw [a, b, c]
      exact ⟨hov, hl, hn⟩

/-- C9: in every state reached from the set-up by any sequence of events
(the load callbacks run as single steps), exactly one overlay model is attached
to the scene and the variable `model` refers to it: the loaded group if the
load has succeeded, the placeholder otherwise (before completion and after a
failure, and as long as no success callback has run); and the failure callback
changes neither the scene nor `model`. -/
theorem one_overlay_attached (hasGetUserMedia : Bool) (es : List Event) :
    overlays (run es (exerciseFive hasGetUserMedia)).1.sceneChildren
        = [(run es (exerciseFive hasGetUserMedia)).1.model]
      ∧ ((run es (exerciseFive hasGetUserMedia)).1.model
          = (if (run es (exerciseFive hasGetUserMedia)).1.gltf = LoadStatus.loaded
             then ModelRef.modelGroup else ModelRef.testGlasses))
      ∧ (Event.gltfLoad ∉ es →
          (run es (exerciseFive hasGetUserMedia)).1.gltf ≠ LoadStatus.loaded)
      ∧ (step Event.gltfError (run es (exerciseFive hasGetUserMedia)).1).1.sceneChildren
          = (run es (exerciseFive hasGetUserMedia)).1.sceneChildren
      ∧ (step Event.gltfError (run es (exerciseFive hasGetUserMedia)).1).1.model
          = (run es (exerciseFive hasGetUserMedia)).1.model := by
  have key : ∀ (es : List Event) (s : State),
      overlays s.sceneChildren = [s.model] →
      (s.gltf = LoadStatus.loaded → s.model = ModelRef.modelGroup) →
      (s.gltf ≠ LoadStatus.loaded → s.model = ModelRef.testGlasses) →
      overlays (run es s).1.sceneChildren = [(run es s).1.model]
        ∧ ((run es s).1.gltf = LoadStatus.loaded → (run es s).1.model = ModelRef.modelGroup)
        ∧ ((run es s).1.gltf ≠ LoadStatus.loaded → (run es s).1.model = ModelRef.testGlasses)
        ∧ (Event.gltfLoad ∉ es → s.gltf ≠ LoadStatus.loaded →
            (run es s).1.gltf ≠ LoadStatus.loaded) := by
    intro es
    induction es with
    | nil => intro s a b c; exact ⟨a, b, c, fun _ h => h⟩
    | cons e es ih =>
      intro s a b c
      obtain ⟨a1, b1, c1⟩ := step_keeps_one_overlay e s a b c
      obtain ⟨a2, b2, c2, d2⟩ := ih (step e s).1 a1 b1 c1
      rw [run_cons]
      refine ⟨a2, b2, c2, ?_⟩
      intro hmem hne
      apply d2 (fun h => hmem (List.mem_cons_of_mem e h))
      by_cases h2 : e = Event.gltfError
      · subst h2
        simp only [step]
        split_ifs
        · simp
        · exact hne
      · rw [(step_keeps_scene e s (fun h => hmem (h ▸ List.mem_cons_self e es)) h2).2.2]
        exact hne
  obtain ⟨a, b, c, d⟩ := key es (exerciseFive hasGetUserMedia) rfl
    (fun h => by cases h) (fun _ => rfl)
  refine ⟨a, ?_, fun h => d h
    (show (exerciseFive hasGetUserMedia).gltf ≠ LoadStatus.loaded by simp [exerciseFive]),
    ?_, ?_⟩
  · split_ifs with hg
    · exact b hg
    · exact c hg
  · simp only [step, onGltfError]; split_ifs <;> rfl
  · simp only [step, onGltfError]; split_ifs <;> rfl

/-- C10: if the close handler runs while a `getUserMedia` request is pending,
then after that request resolves and its first frame arrives, and after any
further events other than a click on the enable button, `webcamRunning` is
false and a tick of `animate` only schedules the next frame: it performs no
detection, no pose application and no rendering, and changes nothing. -/
theorem stop_during_pending_start (s : State) (v : Video) (es1 es2 es3 : List Event)
    (hreg : s.handlersRegistered = true) (_hpend : 0 < s.pendingStreams)
    (h1 : Event.enableClick ∉ es1) (h2 : Event.enableClick ∉ es2)
    (h3 : Event.enableClick ∉ es3) :
    (run (Event.closeClick :: es1 ++ Event.streamResolved :: es2
            ++ Event.loadeddata v :: es3) s).1.webcamRunning = false
      ∧ ∀ env,
          step (Event.animationFrame env)
              (run (Event.closeClick :: es1 ++ Event.streamResolved :: es2
                ++ Event.loadeddata v :: es3) s).1
            = ((run (Event.closeClick :: es1 ++ Event.streamResolved :: es2
                ++ Event.loadeddata v :: es3) s).1, [Effect.requestAnimationFrame]) := by
  have hoff : (run (Event.closeClick :: es1 ++ Event.streamResolved :: es2
      ++ Event.loadeddata v :: es3) s).1.webcamRunning = false := by
    have hclose : (step Event.closeClick s).1.webcamRunning = false := by
      simp only [step, hreg, if_true, closeModal]
      split_ifs <;> rfl
    have hall : Event.enableClick ∉ es1 ++ Event.streamResolved :: es2
        ++ Event.loadeddata v :: es3 := by
      simp only [List.mem_append, List.mem_cons, reduceCtorEq, false_or, not_or]
      exact ⟨⟨h1, h2⟩, h3⟩
    have hrun := run_keeps_webcam_off _ (step Event.closeClick s).1 hall hclose
    simpa [run_cons] using hrun
  exact ⟨hoff, fun env => step_frame_webcam_off env _ hoff⟩

theorem one_overlay_attached_witness :
    overlays (run [Event.gltfProgress, Event.gltfError] (exerciseFive true)).1.sceneChildren
        = [ModelRef.testGlasses]
    ∧ (run [Event.gltfProgress, Event.gltfError] (exerciseFive true)).1.gltf = LoadStatus.failed
    ∧ (run [Event.gltfProgress, Event.gltfError] (exerciseFive true)).1.gltf ≠ LoadStatus.loaded
    ∧ overlays (run [Event.gltfProgress, Event.gltfLoad] (exerciseFive true)).1.sceneChildren
        = [ModelRef.modelGroup]
    ∧ (run [Event.gltfProgress, Event.gltfLoad] (exerciseFive true)).1.model
        = ModelRef.modelGroup :=
  ⟨(one_overlay_attached true [Event.gltfProgress, Event.gltfError]).1, rfl,
    (one_overlay_attached true [Event.gltfProgress, Event.gltfError]).2.2.1 (by decide),
    (one_overlay_attached true [Event.gltfProgress, Event.gltfLoad]).1,
    (one_overlay_attached true [Event.gltfProgress, Event.gltfLoad]).2.1⟩

theorem stop_during_pending_start_witness :
    startPending.handlersRegistered = true ∧ 0 < startPending.pendingStreams
    ∧ startPending.webcamRunning = true
    ∧ (run (Event.closeClick :: [] ++ Event.streamResolved :: []
            ++ Event.loadeddata { currentTime := 0, videoWidth := 1280, videoHeight := 720 }
              :: [Event.animationFrame slopedFrame]) startPending).1.cameraInitialized = true
    ∧ (run (Event.closeClick :: [] ++ Event.streamResolved :: []
            ++ Event.loadeddata { currentTime := 0, videoWidth := 1280, videoHeight := 720 }
              :: [Event.animationFrame slopedFrame]) startPending).1.webcamRunning = false :=
  ⟨rfl, by decide, rfl, rfl,
    (stop_during_pending_start startPending
      { currentTime := 0, videoWidth := 1280, videoHeight := 720 } [] []
      [Event.animationFrame slopedFrame] rfl (by decide) (by simp) (by simp) (by simp)).1⟩

set_option maxRecDepth 8000 in
/-- C8 fails on the code: after a first session that processed a frame with a
face, a close and a second click on the enable button, no `loadeddata` event of
the new session has occurred and its stream is still pending, yet the flag
`cameraInitialized` is still set, so the next tick passes the guard of line
193, reads `videoWidth / videoHeight` of a video element without source and
applies a pose from the results of the closed session. -/
theorem pose_before_recalibration :
    sessionCalibrated restartEvents = false
    ∧ (run restartEvents (exerciseFive true)).1.pendingStreams = 1
    ∧ (run restartEvents (exerciseFive true)).1.srcObject = false
    ∧ (run restartEvents (exerciseFive true)).1.cameraInitialized = true
    ∧ (run restartEvents (exerciseFive true)).1.webcamRunning = true
    ∧ (step (Event.animationFrame blankFrame) (run restartEvents (exerciseFive true)).1).2
        = [Effect.requestAnimationFrame, Effect.save, Effect.clearRect, Effect.applyPose,
           Effect.restore, Effect.render] :=
  ⟨rfl, rfl, rfl, rfl, rfl, rfl⟩

end ClearView
